import Mathlib

/-!
Verification of the credential lifecycle and token-refresh subsystem of a
multi-tenant Spotify credential broker (src/auth.py, src/models.py,
src/spotify_client.py), shallowly embedded in Lean 4.

Modelling conventions:
* Python `datetime` values are pairs of a wall-clock reading (in seconds)
  and an optional timezone offset (`none` = naive datetime).
* The database (SQLAlchemy over SQLite/PostgreSQL) is an explicit record of
  row lists; each auth function threads the database state explicitly.
* Calls to `datetime.now(timezone.utc)` become an explicit `now : Int`
  parameter (the current UTC instant in seconds).
* Randomness (`generate_api_key`, `generate_user_id`, uuid) becomes explicit
  parameters supplying the generated values.
* The Fernet cipher lives in the third-party `cryptography` package, not in
  this repository; it is modelled from the spec as symmetric authenticated
  encryption (a keyed bijection on strings plus an authentication tag).
* The upstream OAuth refresh endpoint is an explicit parameter
  `Except Unit SpotifyTokenInfo`: `Except.error` models a raised exception,
  `Except.ok` the parsed token response.
-/

/-- A Python `datetime`: a wall-clock reading in seconds together with an
optional utcoffset in seconds (`none` models a naive datetime). -/
structure PyDateTime where
  clock : Int
  tz : Option Int
deriving DecidableEq, Repr

/-- Comparison `a <= b` of Python datetimes: comparing a naive and an aware
datetime raises `TypeError` (modelled as `Except.error`); two aware datetimes
compare by absolute instant (clock minus utcoffset); two naive datetimes
compare by clock. -/
def pyLe (a b : PyDateTime) : Except Unit Bool :=
  match a.tz, b.tz with
  | none, none => Except.ok (decide (a.clock ≤ b.clock))
  | some oa, some ob => Except.ok (decide (a.clock - oa ≤ b.clock - ob))
  | _, _ => Except.error ()

/-- Embedding of `auth.tokens_need_refresh`: computes
`buffer_time = datetime.now(timezone.utc) + timedelta(minutes=5)`, replaces a
naive `expires_at`'s tzinfo by UTC, and returns `expires_at <= buffer_time`.
`now` is the current UTC instant in seconds. -/
def tokens_need_refresh (now : Int) (expires_at : PyDateTime) : Except Unit Bool :=
  let buffer_time : PyDateTime := ⟨now + 300, some 0⟩
  let e := if expires_at.tz.isNone then { expires_at with tz := some 0 } else expires_at
  pyLe e buffer_time

/-- C5: `tokens_need_refresh` returns true exactly when the expiry instant is
at most `now + 5 minutes`: with `now = T` it returns true at `T + 4min59s`,
false at `T + 5min1s`, and true at the exact `T + 5min` boundary. -/
theorem tokens_need_refresh_boundary (T : Int) :
    (∀ c : Int, tokens_need_refresh T ⟨c, some 0⟩ = Except.ok (decide (c ≤ T + 300))) ∧
    tokens_need_refresh T ⟨T + 299, some 0⟩ = Except.ok true ∧
    tokens_need_refresh T ⟨T + 301, some 0⟩ = Except.ok false ∧
    tokens_need_refresh T ⟨T + 300, some 0⟩ = Except.ok true := by
  refine ⟨fun c => ?_, ?_, ?_, ?_⟩ <;>
    simp [tokens_need_refresh, pyLe]

/-- C10: on a naive `expires_at`, `tokens_need_refresh` never raises on the
aware/naive comparison, and returns exactly the answer it would give for the
same clock time with UTC attached: naive timestamps are interpreted as UTC. -/
theorem tokens_need_refresh_naive_as_utc (T c : Int) :
    tokens_need_refresh T ⟨c, none⟩ = tokens_need_refresh T ⟨c, some 0⟩ ∧
    tokens_need_refresh T ⟨c, none⟩ = Except.ok (decide (c ≤ T + 300)) := by
  constructor <;> simp [tokens_need_refresh, pyLe]

/-- A Fernet ciphertext token: the encrypted body together with its
authentication tag. -/
structure Ciphertext where
  body : String
  tag : Nat
deriving DecidableEq, Repr

/-- Modelled from the spec: the Fernet cipher of the third-party
`cryptography` package (not part of this repository), used by
`models.cipher_suite` — symmetric authenticated encryption under one
process-wide key: a keyed bijection on strings (`enc`/`dec`) together with a
keyed authentication tag (`mac`) checked on decryption. -/
structure Cipher where
  enc : String → String
  dec : String → String
  mac : String → Nat
  dec_enc : ∀ s, dec (enc s) = s
  enc_dec : ∀ s, enc (dec s) = s

/-- Embedding of `models.encrypt_token`: encrypt a token for storage
(cipher body plus authentication tag). -/
def encrypt_token (k : Cipher) (token : String) : Ciphertext :=
  ⟨k.enc token, k.mac (k.enc token)⟩

/-- Embedding of `models.decrypt_token`: decrypt a token from storage;
`none` models the `InvalidToken` exception raised when the authentication
tag does not verify under the current key. -/
def decrypt_token (k : Cipher) (c : Ciphertext) : Option String :=
  if k.mac c.body = c.tag then some (k.dec c.body) else none

/-- Decryption inverts encryption under the same key. -/
theorem decrypt_encrypt (k : Cipher) (s : String) :
    decrypt_token k (encrypt_token k s) = some s := by
  simp [decrypt_token, encrypt_token, k.dec_enc]

/-- C6: decrypting an encryption returns the original string under the same
process-wide key, and on any ciphertext that is not a genuine encryption
(tampered or malformed), `decrypt_token` fails rather than returning
corrupted plaintext. -/
theorem encrypt_decrypt_roundtrip_and_auth (k : Cipher) (s : String) :
    decrypt_token k (encrypt_token k s) = some s ∧
    ∀ c : Ciphertext, (∀ t : String, c ≠ encrypt_token k t) → decrypt_token k c = none := by
  refine ⟨decrypt_encrypt k s, fun c hc => ?_⟩
  by_contra h
  apply hc (k.dec c.body)
  unfold decrypt_token at h
  split at h
  · next hm =>
      cases c with
      | mk body tag =>
          simp only [encrypt_token, k.enc_dec]
          simp_all
  · exact absurd rfl h

/-- A concrete cipher instance: the identity bijection with string length as
the authentication tag. -/
def idCipher : Cipher :=
  ⟨id, id, String.length, fun _ => rfl, fun _ => rfl⟩

/-- Witness for C6 at a concrete key, plaintext and tampered ciphertext. -/
theorem encrypt_decrypt_roundtrip_and_auth_witness :
    decrypt_token idCipher (encrypt_token idCipher "tok") = some "tok" ∧
    decrypt_token idCipher ⟨"ab", 5⟩ = none := by
  refine ⟨(encrypt_decrypt_roundtrip_and_auth idCipher "tok").1, ?_⟩
  refine (encrypt_decrypt_roundtrip_and_auth idCipher "tok").2 ⟨"ab", 5⟩ ?_
  intro t h
  have hb : "ab" = idCipher.enc t := congrArg Ciphertext.body h
  have ht : 5 = idCipher.mac (idCipher.enc t) := congrArg Ciphertext.tag h
  rw [← hb] at ht
  exact absurd ht (by decide)

/-- Embedding of the `models.User` row: user identity plus issued API key
(`created_at`/`last_active` tracked as UTC instants in seconds). -/
structure User where
  user_id : String
  api_key : String
  spotify_user_id : String
  display_name : Option String
  email : Option String
  created_at : Int
  last_active : Int
deriving DecidableEq, Repr

/-- Embedding of the `models.SpotifyToken` row: at most one per user
(`user_id` is the primary key); both token fields hold ciphertext. -/
structure SpotifyToken where
  user_id : String
  access_token : Ciphertext
  refresh_token : Ciphertext
  expires_at : PyDateTime
  scope : Option String
  created_at : Int
  updated_at : Int
deriving DecidableEq, Repr

/-- Embedding of the `models.UserSession` row (timestamps as UTC instants in
seconds). -/
structure UserSession where
  session_id : String
  user_id : String
  api_key : String
  created_at : Int
  last_activity : Int
  expires_at : Int
deriving DecidableEq, Repr

/-- The relational store: the three tables of `models.py` as row lists. -/
structure DB where
  users : List User
  tokens : List SpotifyToken
  sessions : List UserSession
deriving DecidableEq, Repr

/-- Mutating the first row matched by an SQLAlchemy `.first()` query:
replaces the first element satisfying `p` by its image under `f`, leaving
everything else in place. -/
def updateFirst (p : α → Bool) (f : α → α) : List α → List α
  | [] => []
  | x :: xs => if p x then f x :: xs else x :: updateFirst p f xs

theorem find?_updateFirst (p : α → Bool) (f : α → α) (l : List α) (x : α)
    (hfind : l.find? p = some x) (hf : p (f x) = true) :
    (updateFirst p f l).find? p = some (f x) := by
  induction l with
  | nil => simp at hfind
  | cons y ys ih =>
      by_cases hy : p y = true
      · rw [List.find?_cons_of_pos ys hy] at hfind
        cases hfind
        rw [updateFirst, if_pos hy]
        exact List.find?_cons_of_pos ys hf
      · rw [List.find?_cons_of_neg ys hy] at hfind
        rw [updateFirst, if_neg hy]
        rw [List.find?_cons_of_neg _ hy]
        exact ih hfind

/-- Embedding of `auth.create_user`: return the existing user and API key
when one with this `spotify_user_id` exists, otherwise insert a fresh row.
`new_user_id` and `new_api_key` stand for the values produced by
`generate_user_id()` and `generate_api_key()`. -/
def create_user (db : DB) (now : Int) (new_user_id new_api_key : String)
    (spotify_user_id : String) (display_name email : Option String) :
    (User × String) × DB :=
  match db.users.find? (fun u => u.spotify_user_id == spotify_user_id) with
  | some existing_user => ((existing_user, existing_user.api_key), db)
  | none =>
    let user : User :=
      { user_id := new_user_id, api_key := new_api_key,
        spotify_user_id := spotify_user_id, display_name := display_name,
        email := email, created_at := now, last_active := now }
    ((user, new_api_key), { db with users := db.users ++ [user] })

/-- C4: registering twice with the same `spotify_user_id` yields the same
`user_id` and the same `api_key` both times, the second call creates
nothing, and exactly one User row for that `spotify_user_id` remains. -/
theorem create_user_idempotent (db : DB) (now1 now2 : Int)
    (uid1 key1 uid2 key2 sid : String) (dn1 em1 dn2 em2 : Option String)
    (h0 : ∀ u ∈ db.users, u.spotify_user_id ≠ sid) :
    (create_user (create_user db now1 uid1 key1 sid dn1 em1).2 now2 uid2 key2 sid dn2 em2).1.1.user_id
      = (create_user db now1 uid1 key1 sid dn1 em1).1.1.user_id ∧
    (create_user (create_user db now1 uid1 key1 sid dn1 em1).2 now2 uid2 key2 sid dn2 em2).1.2
      = (create_user db now1 uid1 key1 sid dn1 em1).1.2 ∧
    (create_user (create_user db now1 uid1 key1 sid dn1 em1).2 now2 uid2 key2 sid dn2 em2).2
      = (create_user db now1 uid1 key1 sid dn1 em1).2 ∧
    ((create_user (create_user db now1 uid1 key1 sid dn1 em1).2 now2 uid2 key2 sid dn2 em2).2.users.filter
        (fun u => u.spotify_user_id == sid)).length = 1 := by
  have hnone : db.users.find? (fun u => u.spotify_user_id == sid) = none := by
    rw [List.find?_eq_none]
    intro u hu
    simpa using h0 u hu
  have hnil : db.users.filter (fun u => u.spotify_user_id == sid) = [] := by
    rw [List.filter_eq_nil_iff]
    intro u hu
    simpa using h0 u hu
  simp only [create_user, hnone]
  rw [List.find?_append, hnone]
  simp [List.filter_append, hnil]

/-- Witness for C4 on a concrete empty store. -/
theorem create_user_idempotent_witness :
    (create_user (create_user ⟨[], [], []⟩ 0 "u1" "k1" "sp" none none).2 1 "u2" "k2" "sp" none none).1.1.user_id
      = (create_user ⟨[], [], []⟩ 0 "u1" "k1" "sp" none none).1.1.user_id ∧
    (create_user (create_user ⟨[], [], []⟩ 0 "u1" "k1" "sp" none none).2 1 "u2" "k2" "sp" none none).1.2
      = (create_user ⟨[], [], []⟩ 0 "u1" "k1" "sp" none none).1.2 ∧
    (create_user (create_user ⟨[], [], []⟩ 0 "u1" "k1" "sp" none none).2 1 "u2" "k2" "sp" none none).2
      = (create_user ⟨[], [], []⟩ 0 "u1" "k1" "sp" none none).2 ∧
    ((create_user (create_user ⟨[], [], []⟩ 0 "u1" "k1" "sp" none none).2 1 "u2" "k2" "sp" none none).2.users.filter
        (fun u => u.spotify_user_id == "sp")).length = 1 :=
  create_user_idempotent ⟨[], [], []⟩ 0 1 "u1" "k1" "u2" "k2" "sp" none none none none
    (by intro u hu; simp at hu)
/-- The field update applied by `auth.store_spotify_tokens` to an existing
token row: overwrite both encrypted tokens, `expires_at`, `scope`, and
`updated_at`. -/
def tokenRowUpdate (k : Cipher) (now : Int) (access_token refresh_token : String)
    (expires_at : PyDateTime) (scope : Option String) (t : SpotifyToken) : SpotifyToken :=
  { t with access_token := encrypt_token k access_token,
           refresh_token := encrypt_token k refresh_token,
           expires_at := expires_at, scope := scope, updated_at := now }

/-- The fresh row inserted by `auth.store_spotify_tokens` when the user has
no token row yet. -/
def newTokenRow (k : Cipher) (now : Int) (user_id access_token refresh_token : String)
    (expires_at : PyDateTime) (scope : Option String) : SpotifyToken :=
  { user_id := user_id, access_token := encrypt_token k access_token,
    refresh_token := encrypt_token k refresh_token, expires_at := expires_at,
    scope := scope, created_at := now, updated_at := now }

/-- Embedding of `auth.store_spotify_tokens`: encrypt both tokens, then
update the existing row for the user (found via `.first()`) or insert a new
one. -/
def store_spotify_tokens (k : Cipher) (now : Int) (db : DB)
    (user_id access_token refresh_token : String) (expires_at : PyDateTime)
    (scope : Option String) : DB :=
  match db.tokens.find? (fun t => t.user_id == user_id) with
  | some _ =>
    let tokens' := updateFirst (fun t => t.user_id == user_id)
      (tokenRowUpdate k now access_token refresh_token expires_at scope) db.tokens
    { db with tokens := tokens' }
  | none =>
    let row := newTokenRow k now user_id access_token refresh_token expires_at scope
    { db with tokens := db.tokens ++ [row] }

/-- Embedding of `auth.get_user_tokens`: look up the token row and decrypt
both fields; any decryption failure is caught by the surrounding
`except` block, which returns `None` — exactly the result for a user with
no stored row. -/
def get_user_tokens (k : Cipher) (db : DB) (user_id : String) :
    Option (String × String × PyDateTime) :=
  match db.tokens.find? (fun t => t.user_id == user_id) with
  | none => none
  | some tokens =>
    match decrypt_token k tokens.access_token, decrypt_token k tokens.refresh_token with
    | some access_token, some refresh_token =>
        some (access_token, refresh_token, tokens.expires_at)
    | _, _ => none

/-- Embedding of `auth.update_user_tokens`: delegates to
`store_spotify_tokens` with the default `scope = None`. -/
def update_user_tokens (k : Cipher) (now : Int) (db : DB)
    (user_id access_token refresh_token : String) (expires_at : PyDateTime) : DB :=
  store_spotify_tokens k now db user_id access_token refresh_token expires_at none

/-- Reading a user's tokens right after storing them returns the stored
plaintext values. -/
theorem get_user_tokens_store (k : Cipher) (now : Int) (db : DB)
    (uid a r : String) (e : PyDateTime) (sc : Option String) :
    get_user_tokens k (store_spotify_tokens k now db uid a r e sc) uid
      = some (a, r, e) := by
  cases h : db.tokens.find? (fun t => t.user_id == uid) with
  | none =>
      simp only [store_spotify_tokens, h, get_user_tokens]
      rw [List.find?_append, h]
      simp [newTokenRow, decrypt_encrypt]
  | some t =>
      have hp := List.find?_some h
      have hfx := find?_updateFirst (fun x => x.user_id == uid)
        (tokenRowUpdate k now a r e sc) db.tokens t h
        (by simpa [tokenRowUpdate] using hp)
      simp only [store_spotify_tokens, h, get_user_tokens]
      rw [hfx]
      simp [tokenRowUpdate, decrypt_encrypt]

/-- A stored token row whose ciphertext does not verify under `idCipher`
(tags do not match the bodies). -/
def badCipherRow : SpotifyToken :=
  { user_id := "u", access_token := ⟨"ab", 99⟩, refresh_token := ⟨"cd", 99⟩,
    expires_at := ⟨0, some 0⟩, scope := none, created_at := 0, updated_at := 0 }

/-- A store holding only `badCipherRow`. -/
def dbBadCipher : DB := ⟨[], [badCipherRow], []⟩

/-- The empty store: no users, no token rows, no sessions. -/
def dbEmpty : DB := ⟨[], [], []⟩

/-- C9 (counterexample): user "u" has a stored token row whose ciphertext
does not decrypt under the current key, yet `get_user_tokens` reports
exactly the same result (`None`) as for a user with no stored token pair:
no distinct `DecryptionError` is surfaced. -/
theorem get_user_tokens_decrypt_not_distinct :
    decrypt_token idCipher badCipherRow.access_token = none ∧
    dbBadCipher.tokens.find? (fun t => t.user_id == "u") = some badCipherRow ∧
    get_user_tokens idCipher dbBadCipher "u" = get_user_tokens idCipher dbEmpty "u" := by
  decide

/-- C9 (amended): when a user's stored ciphertext cannot be decrypted,
`get_user_tokens` swallows the error and returns `None` — indistinguishable
from the result for a user with no stored token pair. -/
theorem get_user_tokens_decryption_swallowed (k : Cipher) (db db' : DB)
    (uid : String) (t : SpotifyToken)
    (hfind : db.tokens.find? (fun x => x.user_id == uid) = some t)
    (hdec : decrypt_token k t.access_token = none ∨ decrypt_token k t.refresh_token = none)
    (hnone : db'.tokens.find? (fun x => x.user_id == uid) = none) :
    get_user_tokens k db uid = none ∧ get_user_tokens k db' uid = none := by
  constructor
  · simp only [get_user_tokens, hfind]
    rcases hdec with h | h
    · rw [h]
    · rw [h]
      cases decrypt_token k t.access_token <;> rfl
  · simp [get_user_tokens, hnone]

/-- Witness for the amended C9 on the concrete bad-ciphertext store. -/
theorem get_user_tokens_decryption_swallowed_witness :
    get_user_tokens idCipher dbBadCipher "u" = none ∧
    get_user_tokens idCipher dbEmpty "u" = none :=
  get_user_tokens_decryption_swallowed idCipher dbBadCipher dbEmpty "u" badCipherRow
    (by decide) (Or.inl (by decide)) (by decide)

/-- Embedding of `auth.create_user_session`: delete every existing session
row for the user, then insert a fresh session expiring 30 days from now.
`session_id` stands for the supplied or generated identifier. -/
def create_user_session (db : DB) (now : Int) (session_id user_id api_key : String) :
    UserSession × DB :=
  let remaining := db.sessions.filter (fun s => !(s.user_id == user_id))
  let session : UserSession :=
    { session_id := session_id, user_id := user_id, api_key := api_key,
      created_at := now, last_activity := now, expires_at := now + 2592000 }
  (session, { db with sessions := remaining ++ [session] })

/-- C7: after `create_user_session` completes, the sessions table holds
exactly one row for that user — the newly created session; any prior
session for the user is deleted before the insert. -/
theorem create_user_session_at_most_one (db : DB) (now : Int)
    (session_id user_id api_key : String) :
    ((create_user_session db now session_id user_id api_key).2.sessions.filter
        (fun s => s.user_id == user_id))
      = [(create_user_session db now session_id user_id api_key).1] := by
  simp only [create_user_session]
  rw [List.filter_append, List.filter_filter]
  simp

/-- The row predicate of the `get_session_by_api_key` query: matching
`api_key` and `expires_at` strictly after the current instant. -/
def sessionLive (now : Int) (api_key : String) (s : UserSession) : Bool :=
  s.api_key == api_key && decide (now < s.expires_at)

/-- The `last_activity` touch applied to the returned session row. -/
def touchSession (now : Int) (s : UserSession) : UserSession :=
  { s with last_activity := now }

/-- Embedding of `auth.get_session_by_api_key`: query the first session with
this `api_key` whose `expires_at` is strictly in the future; when found,
update its `last_activity` to now and return it. -/
def get_session_by_api_key (db : DB) (now : Int) (api_key : String) :
    Option UserSession × DB :=
  match db.sessions.find? (sessionLive now api_key) with
  | none => (none, db)
  | some session =>
    let sessions' := updateFirst (sessionLive now api_key) (touchSession now) db.sessions
    (some (touchSession now session), { db with sessions := sessions' })

/-- C8: `get_session_by_api_key` returns a session only if its `expires_at`
is strictly in the future at lookup time, with `last_activity` touched, and
the returned row is the touch of a stored live row; when every stored
session with this key has `expires_at` in the past (or now), the lookup
returns nothing — even before any sweep has run. -/
theorem get_session_by_api_key_live_only (db : DB) (now : Int) (key : String) :
    (∀ s : UserSession, (get_session_by_api_key db now key).1 = some s →
      now < s.expires_at ∧ s.last_activity = now ∧
      ∃ s0 ∈ db.sessions, s0.api_key = key ∧ now < s0.expires_at ∧
        s = touchSession now s0) ∧
    ((∀ s0 ∈ db.sessions, s0.api_key = key → s0.expires_at ≤ now) →
      (get_session_by_api_key db now key).1 = none) := by
  constructor
  · intro s hs
    unfold get_session_by_api_key at hs
    cases h : db.sessions.find? (sessionLive now key) with
    | none => rw [h] at hs; simp at hs
    | some s0 =>
        rw [h] at hs
        simp only [Option.some.injEq] at hs
        have hp := List.find?_some h
        have hmem := List.mem_of_find?_eq_some h
        simp only [sessionLive, Bool.and_eq_true, beq_iff_eq,
          decide_eq_true_eq] at hp
        refine ⟨?_, ?_, s0, hmem, hp.1, hp.2, hs.symm⟩
        · rw [← hs]
          simpa [touchSession] using hp.2
        · rw [← hs]
          simp [touchSession]
  · intro hall
    unfold get_session_by_api_key
    have hnone : db.sessions.find? (sessionLive now key) = none := by
      rw [List.find?_eq_none]
      intro s hsmem
      simp only [sessionLive, Bool.and_eq_true, beq_iff_eq,
        decide_eq_true_eq, not_and]
      intro hk
      have := hall s hsmem hk
      omega
    rw [hnone]

/-- A store with one expired session for key "K". -/
def dbSessionExpired : DB :=
  ⟨[], [], [{ session_id := "s1", user_id := "u", api_key := "K",
              created_at := 0, last_activity := 0, expires_at := 10 }]⟩

/-- A store with one live (at time 20) session for key "K". -/
def dbSessionLive : DB :=
  ⟨[], [], [{ session_id := "s1", user_id := "u", api_key := "K",
              created_at := 0, last_activity := 0, expires_at := 100 }]⟩

/-- Witness for C8: at time 20 the expired session is invisible, and on the
live store the returned session is live and touched. -/
theorem get_session_by_api_key_live_only_witness :
    (get_session_by_api_key dbSessionExpired 20 "K").1 = none ∧
    (20 < ({ session_id := "s1", user_id := "u", api_key := "K",
             created_at := 0, last_activity := 20, expires_at := 100 } : UserSession).expires_at ∧
     ({ session_id := "s1", user_id := "u", api_key := "K",
        created_at := 0, last_activity := 20, expires_at := 100 } : UserSession).last_activity = 20 ∧
     ∃ s0 ∈ dbSessionLive.sessions, s0.api_key = "K" ∧ 20 < s0.expires_at ∧
       ({ session_id := "s1", user_id := "u", api_key := "K",
          created_at := 0, last_activity := 20, expires_at := 100 } : UserSession)
         = touchSession 20 s0) :=
  ⟨(get_session_by_api_key_live_only dbSessionExpired 20 "K").2 (by decide),
   (get_session_by_api_key_live_only dbSessionLive 20 "K").1
     { session_id := "s1", user_id := "u", api_key := "K",
       created_at := 0, last_activity := 20, expires_at := 100 } (by decide)⟩

/-- The parsed upstream token response (`spotipy` refresh result): a new
access token, optionally a new refresh token, and the validity in seconds. -/
structure SpotifyTokenInfo where
  access_token : String
  refresh_token : Option String
  expires_in : Int
deriving DecidableEq, Repr

/-- The outcome of `SpotifyClientManager.get_user_spotify_client`: the bearer
token of the returned `spotipy.Spotify` client (or `none`), the resulting
database state, and the number of upstream refresh calls made. -/
structure ResolveResult where
  client : Option String
  db : DB
  refreshCalls : Nat
deriving DecidableEq, Repr

/-- Embedding of `SpotifyClientManager.get_user_spotify_client`: fetch and
decrypt the stored pair (`None` when absent), return the stored access token
when still fresh, otherwise call the upstream refresh endpoint and persist
the new values — carrying the old refresh token forward when the response
omits one — or return `None` on refresh failure, writing nothing.
`upstream` models `refresh_access_token`. -/
def get_user_spotify_client (k : Cipher) (db : DB) (user_id : String) (now : Int)
    (upstream : Except Unit SpotifyTokenInfo) : ResolveResult :=
  match get_user_tokens k db user_id with
  | none => ⟨none, db, 0⟩
  | some (access_token, refresh_token, expires_at) =>
    match tokens_need_refresh now expires_at with
    | Except.error _ => ⟨none, db, 0⟩
    | Except.ok false => ⟨some access_token, db, 0⟩
    | Except.ok true =>
      match upstream with
      | Except.error _ => ⟨none, db, 1⟩
      | Except.ok new_token_info =>
        let new_expires_at : PyDateTime := ⟨now + new_token_info.expires_in, some 0⟩
        let db' := update_user_tokens k now db user_id new_token_info.access_token
          (new_token_info.refresh_token.getD refresh_token) new_expires_at
        ⟨some new_token_info.access_token, db', 1⟩

/-- C2: when the stored pair is stale and the upstream refresh call fails,
the resolver writes nothing — the database is returned unchanged and a
subsequent `get_user_tokens` returns exactly the pre-refresh access token,
refresh token and `expires_at`. -/
theorem refresh_failure_preserves_tokens (k : Cipher) (db : DB) (uid : String)
    (now : Int) (a r : String) (e : PyDateTime)
    (htok : get_user_tokens k db uid = some (a, r, e))
    (hstale : tokens_need_refresh now e = Except.ok true) :
    get_user_spotify_client k db uid now (Except.error ()) = ⟨none, db, 1⟩ ∧
    get_user_tokens k (get_user_spotify_client k db uid now (Except.error ())).db uid
      = some (a, r, e) := by
  have h1 : get_user_spotify_client k db uid now (Except.error ()) = ⟨none, db, 1⟩ := by
    simp [get_user_spotify_client, htok, hstale]
  refine ⟨h1, ?_⟩
  rw [h1]
  exact htok

/-- A genuine stale token row for user "u" under `idCipher` (expired at
instant 0). -/
def staleRow : SpotifyToken := newTokenRow idCipher 0 "u" "oldA" "oldR" ⟨0, some 0⟩ none

/-- A store holding only `staleRow`. -/
def dbStale : DB := ⟨[], [staleRow], []⟩

/-- Witness for C2 on the concrete stale store at time 1000. -/
theorem refresh_failure_preserves_tokens_witness :
    get_user_spotify_client idCipher dbStale "u" 1000 (Except.error ()) = ⟨none, dbStale, 1⟩ ∧
    get_user_tokens idCipher (get_user_spotify_client idCipher dbStale "u" 1000 (Except.error ())).db "u"
      = some ("oldA", "oldR", ⟨0, some 0⟩) :=
  refresh_failure_preserves_tokens idCipher dbStale "u" 1000 "oldA" "oldR" ⟨0, some 0⟩
    (by decide) rfl

/-- C3: refreshing a stale pair persists the new access token and new
`expires_at`; the old refresh token is kept when the upstream response omits
one (`Option.getD`), and the response's refresh token is persisted when
present. -/
theorem refresh_preserves_old_refresh_token (k : Cipher) (db : DB) (uid : String)
    (now : Int) (a r : String) (e : PyDateTime) (info : SpotifyTokenInfo)
    (htok : get_user_tokens k db uid = some (a, r, e))
    (hstale : tokens_need_refresh now e = Except.ok true) :
    (get_user_spotify_client k db uid now (Except.ok info)).client = some info.access_token ∧
    get_user_tokens k (get_user_spotify_client k db uid now (Except.ok info)).db uid
      = some (info.access_token, info.refresh_token.getD r, ⟨now + info.expires_in, some 0⟩) := by
  have h1 : get_user_spotify_client k db uid now (Except.ok info)
      = ⟨some info.access_token,
         update_user_tokens k now db uid info.access_token (info.refresh_token.getD r)
           ⟨now + info.expires_in, some 0⟩, 1⟩ := by
    simp [get_user_spotify_client, htok, hstale]
  rw [h1]
  exact ⟨rfl, by rw [update_user_tokens]; exact get_user_tokens_store k now db uid info.access_token (info.refresh_token.getD r) ⟨now + info.expires_in, some 0⟩ none⟩

/-- Witness for C3: refreshing the stale store at time 1000 with a response
omitting the refresh token keeps "oldR" next to the new access token. -/
theorem refresh_preserves_old_refresh_token_witness :
    (get_user_spotify_client idCipher dbStale "u" 1000 (Except.ok ⟨"newA", none, 3600⟩)).client
      = some "newA" ∧
    get_user_tokens idCipher
        (get_user_spotify_client idCipher dbStale "u" 1000 (Except.ok ⟨"newA", none, 3600⟩)).db "u"
      = some ("newA", "oldR", ⟨4600, some 0⟩) :=
  refresh_preserves_old_refresh_token idCipher dbStale "u" 1000 "oldA" "oldR" ⟨0, some 0⟩
    ⟨"newA", none, 3600⟩ (by decide) rfl

/-- The per-thread control state of one in-flight
`get_user_spotify_client` call, split at its I/O points: read-and-check the
stored pair, call the upstream refresh endpoint, write the refreshed pair. -/
inductive ThreadState where
  | start : ThreadState
  | needRefresh : String → ThreadState
  | gotResponse : String → SpotifyTokenInfo → ThreadState
  | done : Option String → ThreadState
deriving DecidableEq, Repr

/-- Shared state of N concurrent resolver calls: the database, the number of
upstream refresh calls made so far, and each thread's control state. -/
structure ConcState where
  db : DB
  refreshCalls : Nat
  threads : List ThreadState
deriving DecidableEq, Repr

/-- One atomic step of thread `i` of `get_user_spotify_client` (the source
has no lock, so threads interleave freely at I/O points): from `start`, read
and decrypt the stored pair and decide staleness; from `needRefresh`, call
the upstream endpoint (counted); from `gotResponse`, persist and finish. -/
def stepThread (k : Cipher) (uid : String) (now : Int)
    (upstream : Except Unit SpotifyTokenInfo) (s : ConcState) (i : Nat) : ConcState :=
  match s.threads.get? i with
  | none => s
  | some ThreadState.start =>
    match get_user_tokens k s.db uid with
    | none => { s with threads := s.threads.set i (ThreadState.done none) }
    | some (access_token, refresh_token, expires_at) =>
      match tokens_need_refresh now expires_at with
      | Except.error _ => { s with threads := s.threads.set i (ThreadState.done none) }
      | Except.ok false =>
        { s with threads := s.threads.set i (ThreadState.done (some access_token)) }
      | Except.ok true =>
        { s with threads := s.threads.set i (ThreadState.needRefresh refresh_token) }
  | some (ThreadState.needRefresh refresh_token) =>
    match upstream with
    | Except.error _ =>
      { s with threads := s.threads.set i (ThreadState.done none),
               refreshCalls := s.refreshCalls + 1 }
    | Except.ok info =>
      { s with threads := s.threads.set i (ThreadState.gotResponse refresh_token info),
               refreshCalls := s.refreshCalls + 1 }
  | some (ThreadState.gotResponse refresh_token info) =>
    let db' := update_user_tokens k now s.db uid info.access_token
      (info.refresh_token.getD refresh_token) ⟨now + info.expires_in, some 0⟩
    { s with db := db',
             threads := s.threads.set i (ThreadState.done (some info.access_token)) }
  | some (ThreadState.done _) => s

/-- Run the scheduled interleaving of concurrent resolver calls. -/
def runThreads (k : Cipher) (uid : String) (now : Int)
    (upstream : Except Unit SpotifyTokenInfo) (s : ConcState) (sched : List Nat) : ConcState :=
  sched.foldl (stepThread k uid now upstream) s

/-- Two concurrent resolver calls for user "u", both started on the stale
store. -/
def twoStaleResolvers : ConcState := ⟨dbStale, 0, [ThreadState.start, ThreadState.start]⟩

/-- C1 (violation exhibited): the source has no per-user lock or coalescing,
so under the interleaving in which both concurrent calls read the stale pair
before either refreshes, each call performs its own upstream refresh — two
refresh calls, not exactly one; only a fully serialized schedule performs
one. -/
theorem concurrent_refresh_not_coalesced :
    (runThreads idCipher "u" 1000 (Except.ok ⟨"newA", none, 3600⟩) twoStaleResolvers
        [0, 1, 0, 1, 0, 1]).refreshCalls = 2 ∧
    (runThreads idCipher "u" 1000 (Except.ok ⟨"newA", none, 3600⟩) twoStaleResolvers
        [0, 1, 0, 1, 0, 1]).threads
      = [ThreadState.done (some "newA"), ThreadState.done (some "newA")] ∧
    (runThreads idCipher "u" 1000 (Except.ok ⟨"newA", none, 3600⟩) twoStaleResolvers
        [0, 0, 0, 1]).refreshCalls = 1 := by
  refine ⟨?_, ?_, ?_⟩ <;> decide
